import Mathlib

/-!
Shallow embedding of the withdrawal core of `server.js` (tech-ge/bank-back).

The repository file contains two Express servers registered on
`POST /api/withdraw`:

* the legacy variant (first half of the file): validates amount bounds,
  demo balance, withdrawal method, bank details and M-Pesa phone number,
  then simulates a transfer;
* the gateway variant (second half): validates only the amount bounds,
  then routes to one of two provider adapters (`processStripePayment`,
  `processFlutterwavePayment`) and notifies via Pusher.

Request fields coming from a JSON body are `Option`-typed (absent =
`none`). JavaScript string truthiness (`undefined` and `""` are falsy) is
modelled by `jsTruthyStr`, and `x || d` on strings by `jsOrStr`.
External calls (Stripe, Flutterwave via axios, Pusher) are oracles packed
in an `Env`: each is a function from the outgoing payload to an
`Except`-outcome, standing for "resolves" vs "throws". `Date.now()` and
the random suffix are also supplied by `Env`. The embedding additionally
records, as lists, which adapter calls and which Pusher triggers the
handler performed, so that claims about "the adapter is invoked" are
statements about the trace rather than the response shape.

Amounts are modelled as integers (`Int`); the request `amount` is
`Option Int`, with `none` for an absent field and JavaScript `!amount`
holding exactly on `none` and `some 0`.
-/

namespace BankBack

/-- Truthiness of an optional JavaScript string: `undefined` and `""` are falsy. -/
def jsTruthyStr : Option String → Bool
  | none => false
  | some s => !(s == "")

/-- JavaScript `x || d` for an optional string `x` and default `d`. -/
def jsOrStr (x : Option String) (d : String) : String :=
  if jsTruthyStr x then x.getD d else d

/-- String interpolation of a possibly-undefined value: `undefined` prints as "undefined". -/
def jsInterp : Option String → String
  | none => "undefined"
  | some s => s

/-- The regex `^[0-9]{10}$` from the legacy M-Pesa validation. -/
def tenDigits (s : String) : Bool :=
  s.length == 10 && s.toList.all (fun c => decide ('0' ≤ c) && decide (c ≤ '9'))

/-- Whether an `Except` outcome is a success. -/
def exOk {ε α : Type} : Except ε α → Bool
  | .ok _ => true
  | .error _ => false

/-! ### Gateway variant: data model -/

/-- Body of `POST /api/withdraw` in the gateway variant, as destructured by the handler. -/
structure WithdrawRequest where
  amount : Option Int
  accountNumber : Option String
  bankCode : Option String
  accountName : Option String
  withdrawalMethod : Option String
  phoneNumber : Option String
  paymentMethod : Option String
  deriving DecidableEq, Repr

/-- A successfully created Stripe payment intent (fields the code reads). -/
structure StripeIntent where
  id : String
  client_secret : String
  deriving DecidableEq, Repr

/-- The parameters `stripe.paymentIntents.create` is called with. -/
structure StripeIntentParams where
  amount : Int
  currency : String
  description : String
  metaTransactionId : String
  metaWithdrawalMethod : String
  deriving DecidableEq, Repr

/-- The JSON body posted to the Flutterwave transfers endpoint. -/
structure FlwTransferBody where
  account_bank : String
  account_number : String
  amount : Int
  narration : String
  beneficiary_name : String
  currency : String
  reference : String
  deriving DecidableEq, Repr

/-- Fields the code reads from a successful Flutterwave response
(`data.data?.id` and `data.status`). -/
structure FlwData where
  dataId : Option String
  status : String
  deriving DecidableEq, Repr

/-- Normalized adapter result (`paymentResult` in the handler). -/
inductive PaymentResult where
  | stripeResult (gateway : String) (paymentId : String) (status : String)
      (clientSecret : String)
  | flutterwaveResult (gateway : String) (transferId : Option String) (status : String)
      (reference : String)
  deriving DecidableEq, Repr

/-- Payload of `pusher.trigger('withdrawal-channel', 'withdrawal-event', ...)`. -/
structure PusherEvent where
  channel : String
  event : String
  transactionId : String
  amount : Int
  method : Option String
  status : String
  timestamp : String
  accountName : Option String
  reference : String
  deriving DecidableEq, Repr

/-- Record of one provider-adapter invocation, with the outgoing payload. -/
inductive AdapterCall where
  | stripe (params : StripeIntentParams)
  | flutterwave (body : FlwTransferBody)
  deriving DecidableEq, Repr

/-- Environment of external effects: clock, randomness, and the three
upstream services, each a function from outgoing payload to resolve/throw. -/
structure Env where
  now : Nat
  nowIso : String
  randTxn : String
  stripeCreate : StripeIntentParams → Except String StripeIntent
  flwPost : FlwTransferBody → Except String FlwData
  pusherTrigger : PusherEvent → Except String Unit

/-- JSON body of the gateway variant's withdrawal response; fields absent
from a given response are `none`. -/
structure WithdrawResponse where
  success : Bool
  message : String
  transactionId : Option String := none
  reference : Option String := none
  paymentGateway : Option String := none
  fees : Option Int := none
  netAmount : Option Int := none
  estimatedCompletion : Option String := none
  paymentDetails : Option PaymentResult := none
  deriving DecidableEq, Repr

/-- Result of one run of the gateway handler: HTTP status, JSON body, and
the recorded adapter and Pusher invocations. -/
structure GatewayOutcome where
  status : Nat
  body : WithdrawResponse
  adapterCalls : List AdapterCall
  pusherCalls : List PusherEvent
  deriving Repr

/-! ### Gateway variant: adapters and handler -/

/-- The transaction id `'TXN_' + Date.now() + '_' + random-suffix-uppercased`. -/
def mkTransactionId (env : Env) : String :=
  "TXN_" ++ toString env.now ++ "_" ++ env.randTxn

/-- The reference `'REF_' + Date.now()`. -/
def mkReference (env : Env) : String :=
  "REF_" ++ toString env.now

/-- Embedding of `processStripePayment(amount, description, transactionId)`:
returns the payment-intent parameters sent upstream and the adapter outcome. -/
def processStripePayment (env : Env) (amount : Int) (description : Option String)
    (transactionId : String) : StripeIntentParams × Except String PaymentResult :=
  let params : StripeIntentParams :=
    { amount := amount * 100
      currency := "kes"
      description := "Withdrawal " ++ transactionId ++ " for " ++ jsInterp description
      metaTransactionId := transactionId
      metaWithdrawalMethod := "bank" }
  (params,
    match env.stripeCreate params with
    | .ok intent => .ok (.stripeResult "stripe" intent.id "processing" intent.client_secret)
    | .error msg => .error ("Stripe error: " ++ msg))

/-- Embedding of `processFlutterwavePayment(amount, phoneNumber, accountName,
transactionId)`: returns the transfer body posted upstream and the adapter
outcome. Any upstream failure is rethrown as `Flutterwave processing failed`. -/
def processFlutterwavePayment (env : Env) (amount : Int) (phoneNumber : Option String)
    (accountName : Option String) (transactionId : String) :
    FlwTransferBody × Except String PaymentResult :=
  let body : FlwTransferBody :=
    { account_bank := "999999"
      account_number := jsOrStr phoneNumber "1234567890"
      amount := amount
      narration := "Withdrawal " ++ transactionId
      beneficiary_name := jsOrStr accountName "Beneficiary"
      currency := "KES"
      reference := transactionId }
  (body,
    match env.flwPost body with
    | .ok d => .ok (.flutterwaveResult "flutterwave" d.dataId d.status transactionId)
    | .error _ => .error "Flutterwave processing failed")

/-- The Pusher event the handler triggers after a successful adapter call. -/
def mkPusherEvent (env : Env) (r : WithdrawRequest) (a : Int) : PusherEvent :=
  { channel := "withdrawal-channel"
    event := "withdrawal-event"
    transactionId := mkTransactionId env
    amount := a
    method := r.withdrawalMethod
    status := "completed"
    timestamp := env.nowIso
    accountName := r.accountName
    reference := mkReference env }

/-- Routing block of the gateway handler: the `if paymentMethod === 'stripe'
... else if === 'flutterwave' ... else` chain, with default Flutterwave.
Returns the recorded adapter call and its outcome. -/
def routeAdapter (env : Env) (r : WithdrawRequest) (a : Int) (transactionId : String) :
    AdapterCall × Except String PaymentResult :=
  if r.paymentMethod = some "stripe" then
    let s := processStripePayment env a r.accountName transactionId
    (.stripe s.1, s.2)
  else if r.paymentMethod = some "flutterwave" then
    let f := processFlutterwavePayment env a r.phoneNumber r.accountName transactionId
    (.flutterwave f.1, f.2)
  else
    let f := processFlutterwavePayment env a r.phoneNumber r.accountName transactionId
    (.flutterwave f.1, f.2)

/-- Embedding of the gateway variant's `POST /api/withdraw` handler. -/
def gatewayWithdraw (env : Env) (r : WithdrawRequest) : GatewayOutcome :=
  match r.amount with
  | none =>
      { status := 400
        body := { success := false, message := "Amount must be at least KES 100" }
        adapterCalls := []
        pusherCalls := [] }
  | some a =>
      if a = 0 ∨ a < 100 then
        { status := 400
          body := { success := false, message := "Amount must be at least KES 100" }
          adapterCalls := []
          pusherCalls := [] }
      else if a > 1000000 then
        { status := 400
          body := { success := false, message := "Amount cannot exceed KES 1,000,000" }
          adapterCalls := []
          pusherCalls := [] }
      else
        let transactionId := mkTransactionId env
        let reference := mkReference env
        let fees : Int := if r.withdrawalMethod = some "bank" then 50 else 25
        let netAmount := a - fees
        let routed := routeAdapter env r a transactionId
        match routed.2 with
        | .error msg =>
            { status := 400
              body := { success := false, message := "Payment processing failed: " ++ msg }
              adapterCalls := [routed.1]
              pusherCalls := [] }
        | .ok paymentResult =>
            let ev := mkPusherEvent env r a
            let respBody : WithdrawResponse :=
              { success := true
                message := "Withdrawal of KES " ++ toString a ++ " processed successfully"
                transactionId := some transactionId
                reference := some reference
                paymentGateway := some (jsOrStr r.paymentMethod "flutterwave")
                fees := some fees
                netAmount := some netAmount
                estimatedCompletion := some "Instant to 24 hours"
                paymentDetails := some paymentResult }
            match env.pusherTrigger ev with
            | .ok _ =>
                { status := 200, body := respBody, adapterCalls := [routed.1]
                  pusherCalls := [ev] }
            | .error _ =>
                { status := 200, body := respBody, adapterCalls := [routed.1]
                  pusherCalls := [ev] }

/-- The adapter call the routing block selects for a validated request
(mirrors the `if paymentMethod === 'stripe' ... else ...` chain). -/
def selectedCall (env : Env) (r : WithdrawRequest) (a : Int) : AdapterCall :=
  if r.paymentMethod = some "stripe" then
    .stripe (processStripePayment env a r.accountName (mkTransactionId env)).1
  else
    .flutterwave (processFlutterwavePayment env a r.phoneNumber r.accountName
      (mkTransactionId env)).1

/-- The outcome of the adapter the routing block selects for a validated request. -/
def selectedOutcome (env : Env) (r : WithdrawRequest) (a : Int) :
    Except String PaymentResult :=
  if r.paymentMethod = some "stripe" then
    (processStripePayment env a r.accountName (mkTransactionId env)).2
  else
    (processFlutterwavePayment env a r.phoneNumber r.accountName (mkTransactionId env)).2

/-! ### Legacy variant -/

/-- Demo balance of the legacy variant (`const demoBalance = 100000`). -/
def demoBalance : Int := 100000

/-- Body of `POST /api/withdraw` in the legacy variant, as destructured by
the handler (`amount, method, accountDetails, phoneNumber, accountName`). -/
structure LegacyRequest where
  amount : Option Int
  method : Option String
  accountDetails : Option String
  phoneNumber : Option String
  accountName : Option String
  deriving DecidableEq, Repr

/-- External effects of the legacy handler: clock, random id suffix, and
the outcome of the simulated transfer (`Math.random() > 0.1`). -/
structure LegacyEnv where
  now : Nat
  nowIso : String
  randSuffix : String
  isSuccess : Bool
  deriving DecidableEq, Repr

/-- JSON body of the legacy variant's withdrawal response; fields absent
from a given response are `none`. -/
structure LegacyResponse where
  success : Bool
  message : String
  transactionId : Option String := none
  amount : Option Int := none
  fees : Option Int := none
  netAmount : Option Int := none
  method : Option String := none
  status : Option String := none
  timestamp : Option String := none
  reference : Option String := none
  deriving DecidableEq, Repr

/-- Embedding of the legacy variant's `POST /api/withdraw` handler. -/
def legacyWithdraw (env : LegacyEnv) (r : LegacyRequest) : LegacyResponse :=
  match r.amount with
  | none => { success := false, message := "Amount must be at least KES 100" }
  | some a =>
      if a = 0 ∨ a < 100 then
        { success := false, message := "Amount must be at least KES 100" }
      else if a > demoBalance then
        { success := false
          message := "Insufficient balance. Available: KES " ++ toString demoBalance }
      else if a > 1000000 then
        { success := false, message := "Maximum withdrawal is KES 1,000,000" }
      else
        match r.method with
        | none =>
            { success := false, message := "Please select withdrawal method (bank or mpesa)" }
        | some m =>
            if ¬(m = "bank" ∨ m = "mpesa") then
              { success := false
                message := "Please select withdrawal method (bank or mpesa)" }
            else if m = "bank" ∧
                (¬jsTruthyStr r.accountDetails ∨ ¬jsTruthyStr r.accountName) then
              { success := false, message := "Bank account details required" }
            else if m = "mpesa" ∧
                (¬jsTruthyStr r.phoneNumber ∨ ¬tenDigits (r.phoneNumber.getD "")) then
              { success := false, message := "Valid 10-digit M-Pesa number required" }
            else
              let transactionId := "txn_" ++ toString env.now ++ "_" ++ env.randSuffix
              let fees : Int := if m = "bank" then 50 else 25
              let netAmount := a - fees
              if env.isSuccess then
                { success := true
                  message := "Withdrawal of KES " ++ toString a ++ " processed successfully!"
                  transactionId := some transactionId
                  amount := some a
                  fees := some fees
                  netAmount := some netAmount
                  method := some m
                  status := some "completed"
                  timestamp := some env.nowIso
                  reference := some ("REF" ++ toString env.now) }
              else
                { success := false
                  message := "Payment processing failed. Please try again."
                  transactionId := some transactionId
                  status := some "failed" }

/-! ### Concrete environments and requests for witnesses -/

/-- Environment in which every external service resolves. -/
def envOk : Env :=
  { now := 1700000000000
    nowIso := "2023-11-14T22:13:20.000Z"
    randTxn := "A1B2C3D4E"
    stripeCreate := fun _ => .ok { id := "pi_1", client_secret := "cs_1" }
    flwPost := fun _ => .ok { dataId := some "flw_1", status := "success" }
    pusherTrigger := fun _ => .ok () }

/-- Environment in which the Stripe call rejects. -/
def envStripeFail : Env :=
  { envOk with stripeCreate := fun _ => .error "card_declined" }

/-- Environment in which the Flutterwave call rejects. -/
def envFlwFail : Env :=
  { envOk with flwPost := fun _ => .error "axios network error" }

/-- Environment in which the Pusher trigger rejects. -/
def envPusherFail : Env :=
  { envOk with pusherTrigger := fun _ => .error "pusher down" }

/-- Request with a valid amount and no withdrawal method at all. -/
def reqNoMethod : WithdrawRequest :=
  { amount := some 1000, accountNumber := none, bankCode := none, accountName := none
    withdrawalMethod := none, phoneNumber := none, paymentMethod := none }

/-- Request with a valid amount and withdrawal method `paypal`. -/
def reqOtherMethod : WithdrawRequest :=
  { reqNoMethod with withdrawalMethod := some "paypal" }

/-- M-Pesa request with a valid amount and no phone number. -/
def reqMpesaNoPhone : WithdrawRequest :=
  { reqNoMethod with withdrawalMethod := some "mpesa" }

/-- Bank request with a valid amount and neither account number nor account name. -/
def reqBankNoDetails : WithdrawRequest :=
  { reqNoMethod with withdrawalMethod := some "bank" }

/-- Fully populated bank request paying out through Stripe. -/
def reqBankStripe : WithdrawRequest :=
  { amount := some 1000, accountNumber := some "1234567890", bankCode := some "01"
    accountName := some "John Doe", withdrawalMethod := some "bank"
    phoneNumber := none, paymentMethod := some "stripe" }

/-- Request whose payment method is neither `stripe` nor `flutterwave`. -/
def reqPaypalGateway : WithdrawRequest :=
  { reqNoMethod with withdrawalMethod := some "bank", paymentMethod := some "paypal" }

/-- Legacy environment with a successful simulated transfer. -/
def legacyEnvOk : LegacyEnv :=
  { now := 1700000000000
    nowIso := "2023-11-14T22:13:20.000Z"
    randSuffix := "a1b2c3d4e"
    isSuccess := true }

/-- Legacy request with a valid amount and no method. -/
def legacyReqNoMethod : LegacyRequest :=
  { amount := some 1000, method := none, accountDetails := none, phoneNumber := none
    accountName := none }

/-- Legacy M-Pesa request with a short phone number. -/
def legacyReqBadPhone : LegacyRequest :=
  { legacyReqNoMethod with method := some "mpesa", phoneNumber := some "12345" }

/-- Legacy bank request with no account details. -/
def legacyReqBankNoDetails : LegacyRequest :=
  { legacyReqNoMethod with method := some "bank" }

/-- Success-response body the gateway handler sends for a validated request
whose adapter call returned `pr`. -/
def successBody (env : Env) (r : WithdrawRequest) (a : Int) (pr : PaymentResult) :
    WithdrawResponse :=
  { success := true
    message := "Withdrawal of KES " ++ toString a ++ " processed successfully"
    transactionId := some (mkTransactionId env)
    reference := some (mkReference env)
    paymentGateway := some (jsOrStr r.paymentMethod "flutterwave")
    fees := some (if r.withdrawalMethod = some "bank" then 50 else 25)
    netAmount := some (a - if r.withdrawalMethod = some "bank" then 50 else 25)
    estimatedCompletion := some "Instant to 24 hours"
    paymentDetails := some pr }

/-! ### Shared lemmas about the gateway handler -/

theorem routeAdapter_eq (env : Env) (r : WithdrawRequest) (a : Int) :
    routeAdapter env r a (mkTransactionId env) =
      (selectedCall env r a, selectedOutcome env r a) := by
  by_cases hs : r.paymentMethod = some "stripe"
  · simp [routeAdapter, selectedCall, selectedOutcome, hs]
  · by_cases hf : r.paymentMethod = some "flutterwave" <;>
      simp [routeAdapter, selectedCall, selectedOutcome, hs, hf]

theorem gatewayWithdraw_validated (env : Env) (r : WithdrawRequest) (a : Int)
    (ha : r.amount = some a) (h1 : 100 ≤ a) (h2 : a ≤ 1000000) :
    gatewayWithdraw env r =
      match selectedOutcome env r a with
      | .error msg =>
          { status := 400
            body := { success := false, message := "Payment processing failed: " ++ msg }
            adapterCalls := [selectedCall env r a]
            pusherCalls := [] }
      | .ok pr =>
          { status := 200
            body := successBody env r a pr
            adapterCalls := [selectedCall env r a]
            pusherCalls := [mkPusherEvent env r a] } := by
  have h0 : ¬(a = 0 ∨ a < 100) := by omega
  have h3 : ¬a > 1000000 := by omega
  simp only [gatewayWithdraw, ha]
  rw [if_neg h0, if_neg h3, routeAdapter_eq]
  cases h : selectedOutcome env r a with
  | error msg => rfl
  | ok pr =>
      dsimp only
      cases env.pusherTrigger (mkPusherEvent env r a) <;> rfl

/-! ### Claim theorems -/

/-- C1: for every withdrawal request that reaches the routing step (its
amount passed validation), the gateway handler invokes exactly one provider
adapter: the Stripe adapter when `paymentMethod` equals "stripe", and the
Flutterwave adapter for any other `paymentMethod` value, including absent. -/
theorem C1_adapter_selection (env : Env) (r : WithdrawRequest) (a : Int)
    (ha : r.amount = some a) (h1 : 100 ≤ a) (h2 : a ≤ 1000000) :
    (gatewayWithdraw env r).adapterCalls = [selectedCall env r a] ∧
    (r.paymentMethod = some "stripe" → ∃ p, selectedCall env r a = .stripe p) ∧
    (r.paymentMethod ≠ some "stripe" → ∃ b, selectedCall env r a = .flutterwave b) := by
  refine ⟨?_, fun hs => ?_, fun hs => ?_⟩
  · rw [gatewayWithdraw_validated env r a ha h1 h2]
    cases selectedOutcome env r a <;> rfl
  · exact ⟨_, by rw [selectedCall, if_pos hs]⟩
  · exact ⟨_, by rw [selectedCall, if_neg hs]⟩

theorem C1_adapter_selection_witness :
    (gatewayWithdraw envOk reqBankStripe).adapterCalls =
        [selectedCall envOk reqBankStripe 1000] ∧
    (reqBankStripe.paymentMethod = some "stripe" →
        ∃ p, selectedCall envOk reqBankStripe 1000 = .stripe p) ∧
    (reqBankStripe.paymentMethod ≠ some "stripe" →
        ∃ b, selectedCall envOk reqBankStripe 1000 = .flutterwave b) :=
  C1_adapter_selection envOk reqBankStripe 1000 rfl (by decide) (by decide)

/-- C5: a request with amount below 100 is rejected with the minimum-amount
message, and one with amount above 1,000,000 with the maximum-amount message;
in both cases the handler answers HTTP 400 immediately, with no transaction
id in the body, no adapter call and no Pusher call. -/
theorem C5_amount_bounds (env : Env) (r : WithdrawRequest) (a : Int)
    (ha : r.amount = some a) :
    (a < 100 →
      gatewayWithdraw env r =
        { status := 400
          body := { success := false, message := "Amount must be at least KES 100" }
          adapterCalls := []
          pusherCalls := [] }) ∧
    (a > 1000000 →
      gatewayWithdraw env r =
        { status := 400
          body := { success := false, message := "Amount cannot exceed KES 1,000,000" }
          adapterCalls := []
          pusherCalls := [] }) := by
  constructor
  · intro h
    simp only [gatewayWithdraw, ha]
    rw [if_pos (Or.inr h)]
  · intro h
    have h0 : ¬(a = 0 ∨ a < 100) := by omega
    simp only [gatewayWithdraw, ha]
    rw [if_neg h0, if_pos h]

theorem C5_amount_bounds_witness :
    gatewayWithdraw envOk { reqNoMethod with amount := some 50 } =
      { status := 400
        body := { success := false, message := "Amount must be at least KES 100" }
        adapterCalls := []
        pusherCalls := [] } ∧
    gatewayWithdraw envOk { reqNoMethod with amount := some 2000000 } =
      { status := 400
        body := { success := false, message := "Amount cannot exceed KES 1,000,000" }
        adapterCalls := []
        pusherCalls := [] } :=
  ⟨(C5_amount_bounds envOk { reqNoMethod with amount := some 50 } 50 rfl).1 (by decide),
   (C5_amount_bounds envOk { reqNoMethod with amount := some 2000000 } 2000000 rfl).2
     (by decide)⟩

/-- C6: for every request that passes the gateway validation and whose
selected adapter succeeds, the fee is 50 for withdrawalMethod `bank` and 25
for any other value (including absent), and the success response reports
netAmount = amount - fee exactly. -/
theorem C6_fees_netAmount (env : Env) (r : WithdrawRequest) (a : Int) (pr : PaymentResult)
    (ha : r.amount = some a) (h1 : 100 ≤ a) (h2 : a ≤ 1000000)
    (hok : selectedOutcome env r a = .ok pr) :
    (gatewayWithdraw env r).body.success = true ∧
    (gatewayWithdraw env r).body.fees =
      some (if r.withdrawalMethod = some "bank" then (50 : Int) else 25) ∧
    (gatewayWithdraw env r).body.netAmount =
      some (a - if r.withdrawalMethod = some "bank" then (50 : Int) else 25) := by
  rw [gatewayWithdraw_validated env r a ha h1 h2, hok]
  exact ⟨rfl, rfl, rfl⟩

theorem C6_fees_netAmount_witness :
    (gatewayWithdraw envOk reqBankStripe).body.success = true ∧
    (gatewayWithdraw envOk reqBankStripe).body.fees = some 50 ∧
    (gatewayWithdraw envOk reqBankStripe).body.netAmount = some 950 :=
  C6_fees_netAmount envOk reqBankStripe 1000
    (.stripeResult "stripe" "pi_1" "processing" "cs_1") rfl (by decide) (by decide) rfl

/-- C7: for every validated request whose selected adapter fails, the gateway
handler answers HTTP 400 with success=false and a message carrying the
provider's error reason, performs no Pusher call, and records exactly the one
selected adapter call (no fallback to the other adapter). -/
theorem C7_provider_failure (env : Env) (r : WithdrawRequest) (a : Int) (msg : String)
    (ha : r.amount = some a) (h1 : 100 ≤ a) (h2 : a ≤ 1000000)
    (herr : selectedOutcome env r a = .error msg) :
    (gatewayWithdraw env r).status = 400 ∧
    (gatewayWithdraw env r).body.success = false ∧
    (gatewayWithdraw env r).body.message = "Payment processing failed: " ++ msg ∧
    (gatewayWithdraw env r).pusherCalls = [] ∧
    (gatewayWithdraw env r).adapterCalls = [selectedCall env r a] := by
  rw [gatewayWithdraw_validated env r a ha h1 h2, herr]
  exact ⟨rfl, rfl, rfl, rfl, rfl⟩

theorem C7_provider_failure_witness :
    (gatewayWithdraw envFlwFail reqNoMethod).status = 400 ∧
    (gatewayWithdraw envFlwFail reqNoMethod).body.success = false ∧
    (gatewayWithdraw envFlwFail reqNoMethod).body.message =
      "Payment processing failed: " ++ "Flutterwave processing failed" ∧
    (gatewayWithdraw envFlwFail reqNoMethod).pusherCalls = [] ∧
    (gatewayWithdraw envFlwFail reqNoMethod).adapterCalls =
      [selectedCall envFlwFail reqNoMethod 1000] :=
  C7_provider_failure envFlwFail reqNoMethod 1000 "Flutterwave processing failed" rfl
    (by decide) (by decide) rfl

/-- C8: when the selected adapter succeeds and the Pusher trigger throws, the
error is swallowed: the gateway handler still answers HTTP 200 with the same
success body it would send under a non-failing notifier, and the Pusher
invocation is recorded. -/
theorem C8_notifier_failure_swallowed (env : Env) (r : WithdrawRequest) (a : Int)
    (pr : PaymentResult) (e : String)
    (ha : r.amount = some a) (h1 : 100 ≤ a) (h2 : a ≤ 1000000)
    (hok : selectedOutcome env r a = .ok pr)
    (_hp : env.pusherTrigger (mkPusherEvent env r a) = .error e) :
    (gatewayWithdraw env r).status = 200 ∧
    (gatewayWithdraw env r).body.success = true ∧
    (gatewayWithdraw env r).pusherCalls = [mkPusherEvent env r a] ∧
    (gatewayWithdraw env r).body =
      (gatewayWithdraw { env with pusherTrigger := fun _ => .ok () } r).body := by
  have hok2 : selectedOutcome { env with pusherTrigger := fun _ => .ok () } r a = .ok pr := by
    rw [← hok]
    by_cases hs : r.paymentMethod = some "stripe" <;>
      simp [selectedOutcome, hs, processStripePayment, processFlutterwavePayment,
        mkTransactionId]
  rw [gatewayWithdraw_validated env r a ha h1 h2, hok,
    gatewayWithdraw_validated { env with pusherTrigger := fun _ => .ok () } r a ha h1 h2,
    hok2]
  exact ⟨rfl, rfl, rfl, rfl⟩

theorem C8_notifier_failure_swallowed_witness :
    (gatewayWithdraw envPusherFail reqBankStripe).status = 200 ∧
    (gatewayWithdraw envPusherFail reqBankStripe).body.success = true ∧
    (gatewayWithdraw envPusherFail reqBankStripe).pusherCalls =
      [mkPusherEvent envPusherFail reqBankStripe 1000] ∧
    (gatewayWithdraw envPusherFail reqBankStripe).body =
      (gatewayWithdraw { envPusherFail with pusherTrigger := fun _ => .ok () }
        reqBankStripe).body :=
  C8_notifier_failure_swallowed envPusherFail reqBankStripe 1000
    (.stripeResult "stripe" "pi_1" "processing" "cs_1") "pusher down" rfl
    (by decide) (by decide) rfl rfl

/-- C9: for every validated request with a successful adapter call, the
response's paymentGateway field is the raw paymentMethod string when truthy
and "flutterwave" otherwise; in particular the concrete request with
paymentMethod "paypal" is routed to the Flutterwave adapter while the
response reports gateway "paypal". -/
theorem C9_payment_gateway_echo :
    (∀ (env : Env) (r : WithdrawRequest) (a : Int) (pr : PaymentResult),
      r.amount = some a → 100 ≤ a → a ≤ 1000000 →
      selectedOutcome env r a = .ok pr →
      (gatewayWithdraw env r).body.paymentGateway =
        some (jsOrStr r.paymentMethod "flutterwave")) ∧
    ((∃ b, (gatewayWithdraw envOk reqPaypalGateway).adapterCalls = [.flutterwave b]) ∧
      (gatewayWithdraw envOk reqPaypalGateway).body.paymentGateway = some "paypal") := by
  constructor
  · intro env r a pr ha h1 h2 hok
    rw [gatewayWithdraw_validated env r a ha h1 h2, hok]
    rfl
  · exact ⟨⟨_, rfl⟩, rfl⟩

theorem C9_payment_gateway_echo_witness :
    (gatewayWithdraw envOk reqPaypalGateway).body.paymentGateway = some "paypal" :=
  C9_payment_gateway_echo.1 envOk reqPaypalGateway 1000
    (.flutterwaveResult "flutterwave" (some "flw_1") "success" (mkTransactionId envOk))
    rfl (by decide) (by decide) rfl

/-- C10: the Flutterwave adapter substitutes account_number "1234567890" when
phoneNumber is absent or empty and beneficiary_name "Beneficiary" when
accountName is absent or empty, and its outcome succeeds exactly when the
upstream post on the body it built succeeds: it never rejects locally for
missing recipient fields. -/
theorem C10_flutterwave_defaults (env : Env) (amount : Int)
    (phoneNumber accountName : Option String) (transactionId : String) :
    (jsTruthyStr phoneNumber = false →
      (processFlutterwavePayment env amount phoneNumber accountName
        transactionId).1.account_number = "1234567890") ∧
    (jsTruthyStr accountName = false →
      (processFlutterwavePayment env amount phoneNumber accountName
        transactionId).1.beneficiary_name = "Beneficiary") ∧
    exOk (processFlutterwavePayment env amount phoneNumber accountName transactionId).2 =
      exOk (env.flwPost
        (processFlutterwavePayment env amount phoneNumber accountName transactionId).1) := by
  refine ⟨fun h => ?_, fun h => ?_, ?_⟩
  · simp [processFlutterwavePayment, jsOrStr, h]
  · simp [processFlutterwavePayment, jsOrStr, h]
  · simp only [processFlutterwavePayment]
    cases env.flwPost _ <;> rfl

theorem C10_flutterwave_defaults_witness :
    (processFlutterwavePayment envOk 1000 none none "TXN_T").1.account_number =
      "1234567890" ∧
    (processFlutterwavePayment envOk 1000 none none "TXN_T").1.beneficiary_name =
      "Beneficiary" :=
  ⟨(C10_flutterwave_defaults envOk 1000 none none "TXN_T").1 rfl,
   (C10_flutterwave_defaults envOk 1000 none none "TXN_T").2.1 rfl⟩

/-- C2 counterexample: the gateway handler accepts a valid-amount request with
no withdrawalMethod at all, answers success=true, and invokes the Flutterwave
adapter — so the claimed MissingMethod rejection does not happen there. -/
theorem C2_gateway_no_method_check :
    reqNoMethod.withdrawalMethod = none ∧
    (gatewayWithdraw envOk reqNoMethod).body.success = true ∧
    (gatewayWithdraw envOk reqNoMethod).adapterCalls =
      [.flutterwave (processFlutterwavePayment envOk 1000 none none
        (mkTransactionId envOk)).1] :=
  ⟨rfl, rfl, rfl⟩

/-- C2 amended: only the legacy variant validates the withdrawal method.
For a request passing its amount checks whose `method` field is absent or not
in {bank, mpesa}, the legacy handler responds success=false with the
select-a-method message and nothing else: no transaction id, no processing. -/
theorem C2_legacy_missing_method (env : LegacyEnv) (r : LegacyRequest) (a : Int)
    (ha : r.amount = some a) (h1 : 100 ≤ a) (h2 : a ≤ demoBalance)
    (hm : ∀ m, r.method = some m → m ≠ "bank" ∧ m ≠ "mpesa") :
    legacyWithdraw env r =
      { success := false, message := "Please select withdrawal method (bank or mpesa)" } := by
  have h0 : ¬(a = 0 ∨ a < 100) := by omega
  have hb : ¬a > demoBalance := by omega
  have h3 : ¬a > 1000000 := by simp only [demoBalance] at h2; omega
  simp only [legacyWithdraw, ha]
  rw [if_neg h0, if_neg hb, if_neg h3]
  cases hm' : r.method with
  | none => rfl
  | some m =>
      obtain ⟨hmb, hmm⟩ := hm m hm'
      dsimp only
      rw [if_pos (by tauto)]

theorem C2_legacy_missing_method_witness :
    legacyWithdraw legacyEnvOk legacyReqNoMethod =
      { success := false, message := "Please select withdrawal method (bank or mpesa)" } :=
  C2_legacy_missing_method legacyEnvOk legacyReqNoMethod 1000 rfl (by decide) (by decide)
    (fun m h => nomatch h)

/-- C3 counterexample: the gateway handler accepts a valid-amount mpesa
request with no phoneNumber, answers success=true, and invokes the
Flutterwave adapter with the hard-coded default account number — so the
claimed InvalidPhoneNumber rejection does not happen there. -/
theorem C3_gateway_no_phone_check :
    reqMpesaNoPhone.withdrawalMethod = some "mpesa" ∧
    reqMpesaNoPhone.phoneNumber = none ∧
    (gatewayWithdraw envOk reqMpesaNoPhone).body.success = true ∧
    (gatewayWithdraw envOk reqMpesaNoPhone).adapterCalls =
      [.flutterwave (processFlutterwavePayment envOk 1000 none none
        (mkTransactionId envOk)).1] ∧
    (processFlutterwavePayment envOk 1000 none none
      (mkTransactionId envOk)).1.account_number = "1234567890" :=
  ⟨rfl, rfl, rfl, rfl, rfl⟩

/-- C3 amended: only the legacy variant validates the M-Pesa phone number.
For a legacy request passing its amount checks with method mpesa and a
phoneNumber absent or failing the ten-digit regex, the handler responds
success=false with the valid-10-digit message and performs no processing. -/
theorem C3_legacy_invalid_phone (env : LegacyEnv) (r : LegacyRequest) (a : Int)
    (ha : r.amount = some a) (h1 : 100 ≤ a) (h2 : a ≤ demoBalance)
    (hm : r.method = some "mpesa")
    (hp : ∀ p, r.phoneNumber = some p → tenDigits p = false) :
    legacyWithdraw env r =
      { success := false, message := "Valid 10-digit M-Pesa number required" } := by
  have h0 : ¬(a = 0 ∨ a < 100) := by omega
  have hb : ¬a > demoBalance := by omega
  have h3 : ¬a > 1000000 := by simp only [demoBalance] at h2; omega
  have hphone : ¬jsTruthyStr r.phoneNumber ∨ ¬tenDigits (r.phoneNumber.getD "") := by
    cases hp' : r.phoneNumber with
    | none => exact Or.inl (by simp [jsTruthyStr])
    | some p => exact Or.inr (by simp [hp p hp'])
  simp only [legacyWithdraw, ha, hm]
  rw [if_neg h0, if_neg hb, if_neg h3]
  rw [if_neg (by simp), if_neg (by simp), if_pos (by exact ⟨by trivial, hphone⟩)]

theorem C3_legacy_invalid_phone_witness :
    legacyWithdraw legacyEnvOk legacyReqBadPhone =
      { success := false, message := "Valid 10-digit M-Pesa number required" } :=
  C3_legacy_invalid_phone legacyEnvOk legacyReqBadPhone 1000 rfl (by decide) (by decide)
    rfl (fun p h => by cases h; rfl)

/-- C4 counterexample: the gateway handler accepts a valid-amount bank request
with neither accountNumber nor accountName, answers success=true, and invokes
the (default) Flutterwave adapter — so the claimed MissingBankDetails
rejection does not happen there. -/
theorem C4_gateway_no_bank_details_check :
    reqBankNoDetails.withdrawalMethod = some "bank" ∧
    reqBankNoDetails.accountNumber = none ∧
    reqBankNoDetails.accountName = none ∧
    (gatewayWithdraw envOk reqBankNoDetails).body.success = true ∧
    (gatewayWithdraw envOk reqBankNoDetails).adapterCalls =
      [.flutterwave (processFlutterwavePayment envOk 1000 none none
        (mkTransactionId envOk)).1] :=
  ⟨rfl, rfl, rfl, rfl, rfl⟩

/-- C4 amended: only the legacy variant checks bank details, and it reads them
from the `accountDetails` field (not `accountNumber`). For a legacy request
passing its amount checks with method bank and accountDetails or accountName
absent or empty, the handler responds success=false with the bank-details
message and performs no processing. -/
theorem C4_legacy_missing_bank_details (env : LegacyEnv) (r : LegacyRequest) (a : Int)
    (ha : r.amount = some a) (h1 : 100 ≤ a) (h2 : a ≤ demoBalance)
    (hm : r.method = some "bank")
    (hd : ¬jsTruthyStr r.accountDetails ∨ ¬jsTruthyStr r.accountName) :
    legacyWithdraw env r =
      { success := false, message := "Bank account details required" } := by
  have h0 : ¬(a = 0 ∨ a < 100) := by omega
  have hb : ¬a > demoBalance := by omega
  have h3 : ¬a > 1000000 := by simp only [demoBalance] at h2; omega
  simp only [legacyWithdraw, ha, hm]
  rw [if_neg h0, if_neg hb, if_neg h3]
  rw [if_neg (by simp), if_pos (by exact ⟨by trivial, hd⟩)]

theorem C4_legacy_missing_bank_details_witness :
    legacyWithdraw legacyEnvOk legacyReqBankNoDetails =
      { success := false, message := "Bank account details required" } :=
  C4_legacy_missing_bank_details legacyEnvOk legacyReqBankNoDetails 1000 rfl (by decide)
    (by decide) rfl (Or.inl (by decide))

end BankBack
